import Mathlib

/-!
Verification of the ctrader-go client core (src/client.go): the request
sender, the inbound-message dispatcher, the client lifecycle and the
error-recovery loop, shallowly embedded as executable Lean functions.
External collaborators (proto marshaling, uuid generation, the transport,
the generated type catalog behind responseMapping) are supplied as oracle
parameters recording only their outcomes, exactly as the Go code consumes
them.
-/

namespace Ctrader

/-- Raw bytes crossing the transport boundary, as produced by proto.Marshal. -/
abbrev Bytes := List Nat

/-- Reduction of a Go int32 value to the uint32 stored in the envelope
(the `reqType := uint32(reqTypeRaw)` conversion in send). -/
def uint32Of (x : Int) : Nat := (x % ((2 : Int) ^ 32)).toNat

/-- The outer wire envelope `openapi.ProtoMessage`: an optional client
message id (the correlation id), a payload type tag, and the opaque encoded
inner payload. The Go `PayloadType` field is a pointer that `send` always
sets and `handlerMessage` dereferences unconditionally, so it is modelled
as a plain value. -/
structure ProtoMessage where
  clientMsgId : Option String
  payloadType : Nat
  payload : Bytes
deriving DecidableEq, Repr

/-- The correlation registry `requestRegistry : map[string]chan *ProtoMessage`,
modelled as an association list from correlation id to a channel identifier. -/
abbrev RegMap := List (String × Nat)

/-- Go map read `m[id]` on the registry. -/
def regLookup (m : RegMap) (id : String) : Option Nat :=
  match m with
  | [] => none
  | (k, v) :: rest => if k = id then some v else regLookup rest id

/-- Go `delete(m, id)` on the registry. -/
def regErase (m : RegMap) (id : String) : RegMap :=
  match m with
  | [] => []
  | (k, v) :: rest => if k = id then regErase rest id else (k, v) :: regErase rest id

/-- Go map write `m[id] = ch`: unconditional, replacing any existing binding. -/
def regInsert (m : RegMap) (id : String) (ch : Nat) : RegMap :=
  (id, ch) :: regErase m id

/-- Observable primitive steps of the client, recorded in execution order:
operations on requestRegistryMutex, registry map operations, the transport
send call (recording the envelope it encodes and the bytes handed over),
blocking on the response channel, event-sink and channel deliveries, and
error logging. -/
inductive Action where
  | lockAcquire
  | lockRelease
  | registryInsert (id : String) (ch : Nat)
  | registryLookup (id : String)
  | registryDelete (id : String)
  | transportSend (envelope : ProtoMessage) (bytes : Bytes)
  | awaitDelivery (ch : Nat)
  | eventSink (decoded : Nat)
  | channelSend (ch : Nat) (envelope : ProtoMessage)
  | logError (text : String)
deriving DecidableEq, Repr

/-- The error results of send, one constructor per fmt.Errorf site. -/
inductive SendError where
  | marshalBase (e : String)
  | marshalRequest (e : String)
  | transportSend (e : String)
  | ctxDone (e : String)
  | responseType (tag : Nat)
  | unmarshalResponse (e : String)
deriving DecidableEq, Repr

/-- Outcomes of the external collaborators consumed by one call to send:
the proto.Marshal of the caller's request, the uuid.NewV4 string, the
proto.Marshal of the built envelope, the identity of the freshly made
response channel, the transport send outcome, the select outcome (some
delivered envelope, or none when ctx.Done fires first with error text
ctxErr), the responseMapping table resolution, and the proto.Unmarshal of
the response payload into the resolved shape. -/
structure SendOracle where
  marshalReq : Except String Bytes
  newUUID : String
  marshalMsg : ProtoMessage → Except String Bytes
  freshChan : Nat
  transportErr : Option String
  delivery : Option ProtoMessage
  ctxErr : String
  responseMapping : Nat → Option Nat
  unmarshalShape : Nat → Bytes → Except String Nat

/-- One complete run of send: the returned value ((response, error) in Go,
with ok none for the (nil, nil) fire-and-forget return), the registry
contents at return, and the ordered action trace. -/
structure SendRun where
  result : Except SendError (Option Nat)
  registry : RegMap
  trace : List Action
deriving Repr

/-- Model of Client.send. The correlation id is generated and stored in the
envelope unconditionally; only registration and waiting depend on
hasResponse. The deferred `delete(c.requestRegistry, id)` registered after
a successful registration runs at every subsequent exit, after the mutex
has been released. -/
def send (o : SendOracle) (reg : RegMap) (reqTypeRaw : Int) (hasResponse : Bool) : SendRun :=
  match o.marshalReq with
  | .error e => ⟨.error (.marshalBase e), reg, []⟩
  | .ok payloadBase =>
    let id := o.newUUID
    let message : ProtoMessage := ⟨some id, uint32Of reqTypeRaw, payloadBase⟩
    match o.marshalMsg message with
    | .error e => ⟨.error (.marshalRequest e), reg, []⟩
    | .ok payload =>
      if hasResponse then
        let chanResponse := o.freshChan
        let reg1 := regInsert reg id chanResponse
        let regFinal := regErase reg1 id
        let pre : List Action :=
          [.lockAcquire, .registryInsert id chanResponse, .lockRelease]
        match o.transportErr with
        | some e =>
          ⟨.error (.transportSend e), regFinal,
            pre ++ [.transportSend message payload, .registryDelete id]⟩
        | none =>
          let tr := pre ++ [.transportSend message payload, .awaitDelivery chanResponse]
          match o.delivery with
          | none => ⟨.error (.ctxDone o.ctxErr), regFinal, tr ++ [.registryDelete id]⟩
          | some messageBase =>
            match o.responseMapping messageBase.payloadType with
            | none => ⟨.error (.responseType messageBase.payloadType), regFinal,
                tr ++ [.registryDelete id]⟩
            | some shape =>
              match o.unmarshalShape shape messageBase.payload with
              | .error e => ⟨.error (.unmarshalResponse e), regFinal,
                  tr ++ [.registryDelete id]⟩
              | .ok decoded => ⟨.ok (some decoded), regFinal, tr ++ [.registryDelete id]⟩
      else
        match o.transportErr with
        | some e => ⟨.error (.transportSend e), reg, [.transportSend message payload]⟩
        | none => ⟨.ok none, reg, [.transportSend message payload]⟩

/-- How handlerMessage disposes of one inbound frame. -/
inductive HandlerOutcome where
  | droppedUnmarshal (e : String)
  | droppedUnknownType (tag : Nat)
  | droppedPayloadDecode (e : String)
  | event (decoded : Nat)
  | droppedNoEntry (id : String)
  | delivered (ch : Nat) (envelope : ProtoMessage)
deriving DecidableEq, Repr

/-- Outcomes of the external collaborators consumed by handlerMessage:
proto.Unmarshal of the raw frame into a ProtoMessage, the responseMapping
table resolution, and proto.Unmarshal of the inner payload into the
resolved shape. -/
structure DispatchOracle where
  unmarshalEnvelope : Bytes → Except String ProtoMessage
  responseMapping : Nat → Option Nat
  unmarshalShape : Nat → Bytes → Except String Nat

/-- Model of Client.handlerMessage: decode the envelope once; a frame with
no client message id is resolved and decoded for the event sink, a frame
with one is looked up (under the mutex) in the registry and either
forwarded to the waiting channel or logged and dropped. -/
def handlerMessage (o : DispatchOracle) (reg : RegMap) (payload : Bytes) :
    HandlerOutcome × List Action :=
  match o.unmarshalEnvelope payload with
  | .error e => (.droppedUnmarshal e, [.logError "failed to unmarshal message"])
  | .ok msg =>
    match msg.clientMsgId with
    | none =>
      match o.responseMapping msg.payloadType with
      | none => (.droppedUnknownType msg.payloadType, [.logError "unknow message type"])
      | some shape =>
        match o.unmarshalShape shape msg.payload with
        | .error e => (.droppedPayloadDecode e, [.logError "failed to unmarshal payload"])
        | .ok decoded => (.event decoded, [.eventSink decoded])
    | some cid =>
      match regLookup reg cid with
      | none => (.droppedNoEntry cid,
          [.lockAcquire, .registryLookup cid, .lockRelease,
           .logError "client message ID not found"])
      | some ch => (.delivered ch msg,
          [.lockAcquire, .registryLookup cid, .lockRelease, .channelSend ch msg])

/-- The per-instance client state the lifecycle claims are about: the
atomic stop signal and the correlation registry. -/
structure ClientState where
  stopSignal : Bool
  requestRegistry : RegMap
deriving DecidableEq, Repr

/-- Endpoint selection in Start from the Live flag. -/
def clientAddress (live : Bool) : String :=
  if live then "live.ctraderapi.com:5035" else "demo.ctraderapi.com:5035"

/-- Outcomes of the collaborators consumed by one call to Start: the Live
flag, the transport start outcome, and the outcome of
applicationAuthorization (a request/response exchange whose body is not
under src; only its error result is consumed by Start). -/
structure StartOracle where
  live : Bool
  transportStartErr : Option String
  authErr : Option String

/-- Model of Client.Start: install handlers (no modelled state change),
start the transport at `clientAddress`, replace the registry with a fresh
empty map, run the application handshake, spawn keepalive (background
activity, no modelled state change). The returned pair is the mutated
state and the error value; Start never writes stopSignal. -/
def Start (o : StartOracle) (c : ClientState) : ClientState × Option String :=
  match o.transportStartErr with
  | some e => (c, some ("failed to open the transport: " ++ e))
  | none =>
    let c1 : ClientState := { c with requestRegistry := [] }
    match o.authErr with
    | some e => (c1, some ("failed to authenticate the application: " ++ e))
    | none => (c1, none)

/-- Outcome of the transport stop call consumed by Stop. -/
structure StopOracle where
  transportStopErr : Option String

/-- Model of Client.Stop: store true into stopSignal, wait for the
waitgroup (no modelled state change), then stop the transport. The stop
signal is set even when the transport stop fails. -/
def Stop (o : StopOracle) (c : ClientState) : ClientState × Option String :=
  let c1 : ClientState := { c with stopSignal := true }
  match o.transportStopErr with
  | some e => (c1, some ("failed to close the transport: " ++ e))
  | none => (c1, none)

/-- Events of one run of the recovery loop handlerError: lifecycle calls
with their success, and the fixed one-second backoff sleeps. -/
inductive RecEvent where
  | stopCall (ok : Bool)
  | startCall (ok : Bool)
  | sleepBackoff
deriving DecidableEq, Repr

/-- Model of Client.handlerError: loop forever, each iteration calling
Stop() then Start(); on either failure log, sleep the fixed backoff and
retry the whole iteration; break once both succeed. The script lists the
error result of each successive lifecycle call (none is success); the run
returns the event trace and whether the loop broke out (false means the
scripted outcomes were exhausted with the loop still going). -/
def handlerError : List (Option String) → List RecEvent × Bool
  | [] => ([], false)
  | stopRes :: rest =>
    match stopRes with
    | some _ =>
      let r := handlerError rest
      (RecEvent.stopCall false :: RecEvent.sleepBackoff :: r.1, r.2)
    | none =>
      match rest with
      | [] => ([RecEvent.stopCall true], false)
      | startRes :: rest2 =>
        match startRes with
        | some _ =>
          let r := handlerError rest2
          (RecEvent.stopCall true :: RecEvent.startCall false ::
            RecEvent.sleepBackoff :: r.1, r.2)
        | none => ([RecEvent.stopCall true, RecEvent.startCall true], true)

/-- Checks that, scanning the trace with the mutex depth starting at d,
every registry map operation happens at positive depth (the lock is held). -/
def registryOpsLocked (d : Nat) : List Action → Bool
  | [] => true
  | Action.lockAcquire :: rest => registryOpsLocked (d + 1) rest
  | Action.lockRelease :: rest => registryOpsLocked (d - 1) rest
  | Action.registryInsert _ _ :: rest => decide (0 < d) && registryOpsLocked d rest
  | Action.registryLookup _ :: rest => decide (0 < d) && registryOpsLocked d rest
  | Action.registryDelete _ :: rest => decide (0 < d) && registryOpsLocked d rest
  | _ :: rest => registryOpsLocked d rest

/-- Checks that no transport send occurs before a registry insert for id:
the scan stops successfully at the first insert for id, and fails on a
transport send seen earlier. -/
def insertBeforeTransport (id : String) : List Action → Bool
  | [] => true
  | Action.transportSend _ _ :: _ => false
  | Action.registryInsert i _ :: rest =>
      if i = id then true else insertBeforeTransport id rest
  | _ :: rest => insertBeforeTransport id rest

/-- No event-sink invocation occurs in the trace. -/
def noEventSink : List Action → Bool
  | [] => true
  | Action.eventSink _ :: _ => false
  | _ :: rest => noEventSink rest

/-- No delivery-channel send occurs in the trace. -/
def noChannelSend : List Action → Bool
  | [] => true
  | Action.channelSend _ _ :: _ => false
  | _ :: rest => noChannelSend rest

/-- No blocking wait on a delivery channel occurs in the trace. -/
def noAwait : List Action → Bool
  | [] => true
  | Action.awaitDelivery _ :: _ => false
  | _ :: rest => noAwait rest

/-- Every backoff sleep in a recovery trace is followed (when anything
follows) by a stop call: retries restart the pair from the top. -/
def retriesFromTop : List RecEvent → Bool
  | [] => true
  | RecEvent.sleepBackoff :: rest =>
    match rest with
    | [] => true
    | RecEvent.stopCall _ :: _ => retriesFromTop rest
    | _ => false
  | _ :: rest => retriesFromTop rest

/-- Every start call in a recovery trace is immediately preceded by a
successful stop call. -/
def startPaired : List RecEvent → Bool
  | [] => true
  | RecEvent.stopCall true :: RecEvent.startCall _ :: rest => startPaired rest
  | RecEvent.startCall _ :: _ => false
  | _ :: rest => startPaired rest

/-- Every successful stop call in a recovery trace is followed (when
anything follows) by a start call: stop and start are attempted as a pair. -/
def stopThenStart : List RecEvent → Bool
  | [] => true
  | RecEvent.stopCall true :: rest =>
    match rest with
    | [] => true
    | RecEvent.startCall _ :: _ => stopThenStart rest
    | _ => false
  | _ :: rest => stopThenStart rest

/-- Every failed lifecycle call in a recovery trace is immediately
followed by a backoff sleep. -/
def failureSleeps : List RecEvent → Bool
  | [] => true
  | RecEvent.stopCall false :: rest =>
    match rest with
    | RecEvent.sleepBackoff :: rest2 => failureSleeps rest2
    | _ => false
  | RecEvent.startCall false :: rest =>
    match rest with
    | RecEvent.sleepBackoff :: rest2 => failureSleeps rest2
    | _ => false
  | _ :: rest => failureSleeps rest

/-- Last event of a recovery trace. -/
def lastEvent : List RecEvent → Option RecEvent
  | [] => none
  | [e] => some e
  | _ :: e :: rest => lastEvent (e :: rest)

theorem regLookup_regErase (m : RegMap) (id : String) :
    regLookup (regErase m id) id = none := by
  induction m with
  | nil => rfl
  | cons p rest ih =>
    obtain ⟨k, v⟩ := p
    by_cases h : k = id <;> simp [regErase, regLookup, h, ih]

theorem regLookup_regInsert (m : RegMap) (id : String) (ch : Nat) :
    regLookup (regInsert m id ch) id = some ch := by
  simp [regInsert, regLookup]

/-- A concrete send oracle on which every collaborator succeeds: the
request marshals to [1], the uuid is "id0", the envelope marshals to [2],
the fresh channel is 5, the transport accepts, the response envelope
carrying tag 2101 and payload [3] is delivered, resolves to shape 1 and
decodes to 9. -/
def okOracle : SendOracle where
  marshalReq := .ok [1]
  newUUID := "id0"
  marshalMsg := fun _ => .ok [2]
  freshChan := 5
  transportErr := none
  delivery := some ⟨some "id0", 2101, [3]⟩
  ctxErr := "context deadline exceeded"
  responseMapping := fun _ => some 1
  unmarshalShape := fun _ _ => .ok 9

/-- okOracle with a failing transport send. -/
def transportDownOracle : SendOracle :=
  { okOracle with transportErr := some "broken pipe" }

/-- okOracle with a failing request marshal. -/
def badRequestOracle : SendOracle :=
  { okOracle with marshalReq := .error "proto: cannot marshal" }

/-- A concrete dispatch oracle decoding every frame to a correlated
envelope with id "id9", tag 2101 and payload [3]. -/
def dOracle : DispatchOracle where
  unmarshalEnvelope := fun _ => .ok ⟨some "id9", 2101, [3]⟩
  responseMapping := fun _ => some 1
  unmarshalShape := fun _ _ => .ok 9

/-- A concrete dispatch oracle decoding every frame to an uncorrelated
(event) envelope with tag 2131 and payload [3]. -/
def dOracleEvent : DispatchOracle :=
  { dOracle with unmarshalEnvelope := fun _ => .ok ⟨none, 2131, [3]⟩ }

/-- Claim C1 as stated is false: in a run of send with hasResponse set to
false, the envelope handed to the transport still carries a correlation
id (the generated uuid), not an omitted one. -/
theorem C1_counterexample :
    (send okOracle [] 51 false).trace =
      [Action.transportSend ⟨some "id0", 51, [1]⟩ [2]] ∧
    ProtoMessage.clientMsgId ⟨some "id0", 51, [1]⟩ ≠ none := by
  exact ⟨rfl, by decide⟩

/-- Claim C1 amended: send generates a correlation id and places it in the
envelope unconditionally; every envelope a run of send hands to the
transport carries the generated uuid as its correlation id, for either
value of hasResponse. -/
theorem C1_corrected (o : SendOracle) (reg : RegMap) (t : Int) (hasResponse : Bool)
    (m : ProtoMessage) (b : Bytes)
    (h : Action.transportSend m b ∈ (send o reg t hasResponse).trace) :
    m.clientMsgId = some o.newUUID := by
  cases hmr : o.marshalReq with
  | error e => simp [send, hmr] at h
  | ok pb =>
    cases hmm : o.marshalMsg ⟨some o.newUUID, uint32Of t, pb⟩ with
    | error e => simp [send, hmr, hmm] at h
    | ok bs =>
      cases hasResponse with
      | false =>
        cases htr : o.transportErr with
        | none =>
          simp [send, hmr, hmm, htr] at h
          simp [h.1]
        | some e =>
          simp [send, hmr, hmm, htr] at h
          simp [h.1]
      | true =>
        cases htr : o.transportErr with
        | none =>
          cases hd : o.delivery with
          | none =>
            simp [send, hmr, hmm, htr, hd] at h
            simp [h.1]
          | some mb =>
            cases hrm : o.responseMapping mb.payloadType with
            | none =>
              simp [send, hmr, hmm, htr, hd, hrm] at h
              simp [h.1]
            | some shape =>
              cases hus : o.unmarshalShape shape mb.payload with
              | error e =>
                simp [send, hmr, hmm, htr, hd, hrm, hus] at h
                simp [h.1]
              | ok d =>
                simp [send, hmr, hmm, htr, hd, hrm, hus] at h
                simp [h.1]
        | some e =>
          simp [send, hmr, hmm, htr] at h
          simp [h.1]

/-- Witness for the amended claim C1 at a concrete input: the envelope
sent by the fire-and-forget heartbeat run of okOracle carries the
generated id. -/
theorem C1_corrected_witness :
    (⟨some "id0", 51, [1]⟩ : ProtoMessage).clientMsgId = some "id0" :=
  C1_corrected okOracle [] 51 false ⟨some "id0", 51, [1]⟩ [2] (by decide)

/-- Claim C2 evaluated at its failing input: a full successful run of send
with hasResponse. The final action is the deferred registry delete and it
occurs with the mutex depth at zero, so the trace violates the
every-registry-operation-under-the-lock discipline, while the trace
without that final delete satisfies it. -/
theorem C2_unlocked_deferred_delete :
    registryOpsLocked 0 (send okOracle [] 2100 true).trace = false ∧
    (send okOracle [] 2100 true).trace.getLast? = some (Action.registryDelete "id0") ∧
    registryOpsLocked 0 (send okOracle [] 2100 true).trace.dropLast = true := by
  decide

/-- Claim C3 evaluated at its failing input: starting from the initial
state, a successful Stop sets the stop signal, and a subsequent successful
Start leaves the stop signal still set — Start never writes stopSignal, so
the client is not in the running state after a Stop/Start cycle. -/
theorem C3_start_after_stop_still_stopped :
    (Stop ⟨none⟩ ⟨false, []⟩).2 = none ∧
    (Stop ⟨none⟩ ⟨false, []⟩).1.stopSignal = true ∧
    (Start ⟨false, none, none⟩ (Stop ⟨none⟩ ⟨false, []⟩).1).2 = none ∧
    (Start ⟨false, none, none⟩ (Stop ⟨none⟩ ⟨false, []⟩).1).1.stopSignal = true := by
  decide

/-- Claim C4 as stated is false: running send with hasResponse against a
registry that already binds the generated id "id0" does not fail with any
duplicate-id error — the call succeeds, the insert for the new channel 5
is performed, and the preexisting entry is gone from the final registry. -/
theorem C4_counterexample :
    regLookup [("id0", 7)] "id0" = some 7 ∧
    (send okOracle [("id0", 7)] 2100 true).result = .ok (some 9) ∧
    Action.registryInsert "id0" 5 ∈ (send okOracle [("id0", 7)] 2100 true).trace ∧
    (send okOracle [("id0", 7)] 2100 true).registry = [] :=
  ⟨by decide, rfl, by decide, rfl⟩

/-- Claim C4 amended: a registration whose id already has a registry entry
silently replaces it. The preexisting entry changes nothing about the
call's outcome (the result equals that of the same run on a registry
without the entry, so in particular no duplicate-id failure exists), the
insert of the fresh channel is performed, and the id is absent from the
registry when send returns. -/
theorem C4_corrected (o : SendOracle) (reg : RegMap) (t : Int) (ch0 : Nat) (pb bs : Bytes)
    (_hdup : regLookup reg o.newUUID = some ch0)
    (h1 : o.marshalReq = .ok pb)
    (h2 : o.marshalMsg ⟨some o.newUUID, uint32Of t, pb⟩ = .ok bs) :
    (send o reg t true).result = (send o (regErase reg o.newUUID) t true).result ∧
    Action.registryInsert o.newUUID o.freshChan ∈ (send o reg t true).trace ∧
    regLookup (send o reg t true).registry o.newUUID = none := by
  cases htr : o.transportErr with
  | some e =>
    simp [send, h1, h2, htr, regInsert, regLookup_regErase]
  | none =>
    cases hd : o.delivery with
    | none =>
      simp [send, h1, h2, htr, hd, regInsert, regLookup_regErase]
    | some mb =>
      cases hrm : o.responseMapping mb.payloadType with
      | none =>
        simp [send, h1, h2, htr, hd, hrm, regInsert, regLookup_regErase]
      | some shape =>
        cases hus : o.unmarshalShape shape mb.payload with
        | error e =>
          simp [send, h1, h2, htr, hd, hrm, hus, regInsert, regLookup_regErase]
        | ok d =>
          simp [send, h1, h2, htr, hd, hrm, hus, regInsert, regLookup_regErase]

/-- Witness for the amended claim C4 at a concrete input: a duplicate
entry ("id0", 7) is replaced, the run succeeds identically to the
duplicate-free run, and the id is deregistered at return. -/
theorem C4_corrected_witness :
    (send okOracle [("id0", 7)] 2100 true).result =
      (send okOracle (regErase [("id0", 7)] "id0") 2100 true).result ∧
    Action.registryInsert "id0" 5 ∈ (send okOracle [("id0", 7)] 2100 true).trace ∧
    regLookup (send okOracle [("id0", 7)] 2100 true).registry "id0" = none :=
  C4_corrected okOracle [("id0", 7)] 2100 7 [1] [2] (by decide) rfl rfl

/-- Claim C5: in every run of send with hasResponse, no transport send
occurs before the registry insert of the fresh entry for the generated id
— whenever the transport is invoked, the registration has already
happened. -/
theorem C5_insert_before_transport_send (o : SendOracle) (reg : RegMap) (t : Int) :
    insertBeforeTransport o.newUUID (send o reg t true).trace = true := by
  cases hmr : o.marshalReq with
  | error e => simp [send, hmr, insertBeforeTransport]
  | ok pb =>
    cases hmm : o.marshalMsg ⟨some o.newUUID, uint32Of t, pb⟩ with
    | error e => simp [send, hmr, hmm, insertBeforeTransport]
    | ok bs =>
      cases htr : o.transportErr with
      | some e => simp [send, hmr, hmm, htr, insertBeforeTransport]
      | none =>
        cases hd : o.delivery with
        | none => simp [send, hmr, hmm, htr, hd, insertBeforeTransport]
        | some mb =>
          cases hrm : o.responseMapping mb.payloadType with
          | none => simp [send, hmr, hmm, htr, hd, hrm, insertBeforeTransport]
          | some shape =>
            cases hus : o.unmarshalShape shape mb.payload with
            | error e => simp [send, hmr, hmm, htr, hd, hrm, hus, insertBeforeTransport]
            | ok d => simp [send, hmr, hmm, htr, hd, hrm, hus, insertBeforeTransport]

/-- Claim C6: an inbound frame that decodes to an envelope carrying a
correlation id with no matching registry entry is dropped after the locked
lookup: the handler's whole effect is the failed lookup and an error log —
the event sink is not invoked, no delivery channel receives a value, and
the outcome is a drop, not an error surfaced to a caller. -/
theorem C6_unmatched_id_dropped (o : DispatchOracle) (reg : RegMap) (p : Bytes)
    (msg : ProtoMessage) (cid : String)
    (h1 : o.unmarshalEnvelope p = .ok msg)
    (h2 : msg.clientMsgId = some cid)
    (h3 : regLookup reg cid = none) :
    handlerMessage o reg p =
      (.droppedNoEntry cid,
       [.lockAcquire, .registryLookup cid, .lockRelease,
        .logError "client message ID not found"]) ∧
    noEventSink (handlerMessage o reg p).2 = true ∧
    noChannelSend (handlerMessage o reg p).2 = true := by
  simp [handlerMessage, h1, h2, h3, noEventSink, noChannelSend]

/-- Witness for claim C6 at a concrete input: dOracle decodes every frame
to an envelope correlated to "id9", which an empty registry cannot match. -/
theorem C6_unmatched_id_dropped_witness :
    handlerMessage dOracle [] [0] =
      (.droppedNoEntry "id9",
       [.lockAcquire, .registryLookup "id9", .lockRelease,
        .logError "client message ID not found"]) ∧
    noEventSink (handlerMessage dOracle [] [0]).2 = true ∧
    noChannelSend (handlerMessage dOracle [] [0]).2 = true :=
  C6_unmatched_id_dropped dOracle [] [0] ⟨some "id9", 2101, [3]⟩ "id9" rfl rfl rfl

/-- Claim C7: an inbound frame that decodes to an envelope with no
correlation id never reaches a delivery channel; when tag resolution and
payload decoding succeed the decoded message goes to the event sink, and
when either fails the frame is only logged and dropped with no effect on
the connection. -/
theorem C7_event_frame_dispatch (o : DispatchOracle) (reg : RegMap) (p : Bytes)
    (msg : ProtoMessage)
    (h1 : o.unmarshalEnvelope p = .ok msg)
    (h2 : msg.clientMsgId = none) :
    noChannelSend (handlerMessage o reg p).2 = true ∧
    (∀ shape d, o.responseMapping msg.payloadType = some shape →
      o.unmarshalShape shape msg.payload = .ok d →
      handlerMessage o reg p = (.event d, [.eventSink d])) ∧
    (o.responseMapping msg.payloadType = none →
      handlerMessage o reg p =
        (.droppedUnknownType msg.payloadType, [.logError "unknow message type"])) ∧
    (∀ shape e, o.responseMapping msg.payloadType = some shape →
      o.unmarshalShape shape msg.payload = .error e →
      handlerMessage o reg p =
        (.droppedPayloadDecode e, [.logError "failed to unmarshal payload"])) := by
  refine ⟨?_, ?_, ?_, ?_⟩
  · cases hrm : o.responseMapping msg.payloadType with
    | none => simp [handlerMessage, h1, h2, hrm, noChannelSend]
    | some shape =>
      cases hus : o.unmarshalShape shape msg.payload with
      | error e => simp [handlerMessage, h1, h2, hrm, hus, noChannelSend]
      | ok d => simp [handlerMessage, h1, h2, hrm, hus, noChannelSend]
  · intro shape d hrm hus
    simp [handlerMessage, h1, h2, hrm, hus]
  · intro hrm
    simp [handlerMessage, h1, h2, hrm]
  · intro shape e hrm hus
    simp [handlerMessage, h1, h2, hrm, hus]

/-- Witness for claim C7 at a concrete input: dOracleEvent decodes every
frame to an uncorrelated envelope, its tag resolves and its payload
decodes to 9, and the handler dispatches exactly one event-sink call. -/
theorem C7_event_frame_dispatch_witness :
    noChannelSend (handlerMessage dOracleEvent [] [0]).2 = true ∧
    handlerMessage dOracleEvent [] [0] = (.event 9, [.eventSink 9]) := by
  have h := C7_event_frame_dispatch dOracleEvent [] [0] ⟨none, 2131, [3]⟩ rfl rfl
  exact ⟨h.1, h.2.1 1 9 rfl rfl⟩

/-- Claim C8: when send expects a response and the transport send fails,
the call returns the transport error at once — the trace contains no wait
on the delivery channel — and the registry entry registered for the call
has been removed again by the time send returns. -/
theorem C8_transport_failure_deregisters (o : SendOracle) (reg : RegMap) (t : Int)
    (pb bs : Bytes) (e : String)
    (h1 : o.marshalReq = .ok pb)
    (h2 : o.marshalMsg ⟨some o.newUUID, uint32Of t, pb⟩ = .ok bs)
    (h3 : o.transportErr = some e) :
    (send o reg t true).result = .error (.transportSend e) ∧
    noAwait (send o reg t true).trace = true ∧
    regLookup (send o reg t true).registry o.newUUID = none := by
  simp [send, h1, h2, h3, noAwait, regInsert, regLookup_regErase]

/-- Witness for claim C8 at a concrete input: the broken-pipe oracle. -/
theorem C8_transport_failure_deregisters_witness :
    (send transportDownOracle [] 2100 true).result = .error (.transportSend "broken pipe") ∧
    noAwait (send transportDownOracle [] 2100 true).trace = true ∧
    regLookup (send transportDownOracle [] 2100 true).registry "id0" = none :=
  C8_transport_failure_deregisters transportDownOracle [] 2100 [1] [2] "broken pipe"
    rfl rfl rfl

theorem handlerError_trace_shape (s : List (Option String)) :
    (handlerError s).1 = [] ∨
    ∃ b rest, (handlerError s).1 = RecEvent.stopCall b :: rest := by
  cases s with
  | nil => exact Or.inl rfl
  | cons stopRes rest =>
    cases stopRes with
    | some e => exact Or.inr ⟨false, _, rfl⟩
    | none =>
      cases rest with
      | nil => exact Or.inr ⟨true, [], rfl⟩
      | cons startRes rest2 =>
        cases startRes with
        | some e => exact Or.inr ⟨true, _, rfl⟩
        | none => exact Or.inr ⟨true, _, rfl⟩

theorem handlerError_discipline :
    ∀ s : List (Option String),
      retriesFromTop (handlerError s).1 = true ∧
      startPaired (handlerError s).1 = true ∧
      stopThenStart (handlerError s).1 = true ∧
      failureSleeps (handlerError s).1 = true ∧
      (handlerError s).2 =
        decide (lastEvent (handlerError s).1 = some (RecEvent.startCall true))
  | [] => by decide
  | some e :: rest => by
      have ih := handlerError_discipline rest
      have hs := handlerError_trace_shape rest
      simp only [handlerError]
      rcases hs with h | ⟨b, r, h⟩ <;>
        simp_all [retriesFromTop, startPaired, stopThenStart, failureSleeps, lastEvent]
  | [none] => by decide
  | none :: some e :: rest2 => by
      have ih := handlerError_discipline rest2
      have hs := handlerError_trace_shape rest2
      simp only [handlerError]
      rcases hs with h | ⟨b, r, h⟩ <;>
        simp_all [retriesFromTop, startPaired, stopThenStart, failureSleeps, lastEvent]
  | none :: none :: rest2 => by
      simp [handlerError, retriesFromTop, startPaired, stopThenStart, failureSleeps,
        lastEvent]

/-- Claim C9: in every run of the recovery loop, stop and start are
attempted as a pair (every start call follows a successful stop, every
successful stop is followed by a start attempt when anything follows),
each failed call is immediately followed by the fixed backoff sleep, after
a sleep the loop begins again with a stop call, and the loop terminates
exactly when its final event is a successful start — both halves of the
pair having succeeded within the last iteration. -/
theorem C9_recovery_pair_retry (script : List (Option String)) :
    retriesFromTop (handlerError script).1 = true ∧
    startPaired (handlerError script).1 = true ∧
    stopThenStart (handlerError script).1 = true ∧
    failureSleeps (handlerError script).1 = true ∧
    (handlerError script).2 =
      decide (lastEvent (handlerError script).1 = some (RecEvent.startCall true)) :=
  handlerError_discipline script

/-- Claim C10: when marshaling the inner request fails, send returns the
error with a nil response, the registry is returned untouched, and the
action trace is empty — no registration, no lock operation, and no
transport send ever happens. -/
theorem C10_marshal_failure_inert (o : SendOracle) (reg : RegMap) (t : Int)
    (hasResponse : Bool) (e : String)
    (h : o.marshalReq = .error e) :
    send o reg t hasResponse = ⟨.error (.marshalBase e), reg, []⟩ := by
  simp [send, h]

/-- Witness for claim C10 at a concrete input. -/
theorem C10_marshal_failure_inert_witness :
    send badRequestOracle [("id1", 3)] 2100 true =
      ⟨.error (.marshalBase "proto: cannot marshal"), [("id1", 3)], []⟩ :=
  C10_marshal_failure_inert badRequestOracle [("id1", 3)] 2100 true
    "proto: cannot marshal" rfl

end Ctrader
